import Mathlib

/-!
Shallow embedding of `src/app.py` (legislative-bill dashboard): the
paginated fetcher (`_fetch_page` / `fetch_all_rows`), the field
normalizer (`bill_detail_link` / `build_dataframe`), the filter
(`filter_dataframe`), the display fill step of `render_table`, and a
model of the TTL cache wrapping the fetch.

Modelling conventions:
* Python values occurring in the raw API records are modelled by `PyVal`
  (JSON-derived values: null, string, integer); a raw record (a Python
  dict) is an association list from string keys to `PyVal`.
* pandas dataframes are lists of rows; `NaT` is `Option.none`.
* machine-level concerns (HTTP, SSL, Streamlit widgets) are outside the
  embedding; the page source is a parameter.
-/

/-- A Python value as it occurs in the JSON rows of the API response:
`None`, a string, or an integer. -/
inductive PyVal where
  | none
  | vstr (s : String)
  | vint (n : Int)
deriving DecidableEq

/-- Python truthiness for `PyVal`: `None` and empty string and zero are
falsy, everything else truthy. -/
def PyVal.truthy : PyVal → Bool
  | PyVal.none => false
  | PyVal.vstr s => s != ""
  | PyVal.vint n => n != 0

/-- Python `str(v)`: identity on strings, textual form otherwise. -/
def PyVal.str : PyVal → String
  | PyVal.none => "None"
  | PyVal.vstr s => s
  | PyVal.vint n => toString n

/-- Python `a or b`: the first operand when truthy, the second otherwise. -/
def pyOr (a b : PyVal) : PyVal := if a.truthy then a else b

/-- A raw record of the API (a Python dict), as an association list. -/
abbrev Record := List (String × PyVal)

/-- Python `dict.get(key)`: the stored value, or `None` when absent. -/
def rget (r : Record) (k : String) : PyVal :=
  match r with
  | [] => PyVal.none
  | (k', v) :: rest => if k' = k then v else rget rest k

/-- A calendar date, the payload of a parsed pandas timestamp. -/
structure Date where
  year : Nat
  month : Nat
  day : Nat
deriving DecidableEq

/-- Lexicographic comparison of dates, `a ≤ b`. -/
def dateLE (a b : Date) : Bool :=
  if a.year ≠ b.year then decide (a.year < b.year)
  else if a.month ≠ b.month then decide (a.month < b.month)
  else decide (a.day ≤ b.day)

/-- The pandas comparison `proposal-date >= ts` on a possibly-`NaT`
column value: `NaT >= ts` is `False`. -/
def dateGe : Option Date → Date → Bool
  | Option.none, _ => false
  | some d, t => dateLE t d

/-- Characters treated as whitespace by Python `str.strip()`
(the common ones occurring in the data). -/
def isSpaceChar (c : Char) : Bool :=
  c == ' ' || c == '\t' || c == '\n' || c == '\r'

/-- Python `str.strip()` on a character list. -/
def stripChars (cs : List Char) : List Char :=
  ((cs.dropWhile isSpaceChar).reverse.dropWhile isSpaceChar).reverse

/-- Digits of a decimal numeral accumulated to a `Nat`; `Option.none`
when a non-digit occurs. -/
def digitsToNatAux : List Char → Nat → Option Nat
  | [], acc => some acc
  | c :: cs, acc =>
    if c.isDigit then digitsToNatAux cs (acc * 10 + (c.toNat - '0'.toNat))
    else Option.none

/-- A nonempty all-digit character list read as a `Nat`. -/
def digitsToNat : List Char → Option Nat
  | [] => Option.none
  | c :: cs => digitsToNatAux (c :: cs) 0

/-- Split a character list on a separator character. -/
def splitOnChar (sep : Char) : List Char → List (List Char)
  | [] => [[]]
  | c :: cs =>
    if c = sep then [] :: splitOnChar sep cs
    else
      match splitOnChar sep cs with
      | [] => [[c]]
      | g :: gs => (c :: g) :: gs

/-- Models `pd.to_datetime(col, errors="coerce")` applied elementwise in
`build_dataframe`, for the ISO `YYYY-MM-DD` strings the API serves: a
string splitting into three decimal components with a plausible month
and day parses to a date; any other value (absent, blank, malformed,
non-string) coerces to `NaT` (`Option.none`). -/
def parseDate : PyVal → Option Date
  | PyVal.vstr s =>
    match splitOnChar '-' s.data with
    | [ys, ms, ds] =>
      match digitsToNat ys, digitsToNat ms, digitsToNat ds with
      | some y, some m, some d =>
        if 1 ≤ m ∧ m ≤ 12 ∧ 1 ≤ d ∧ d ≤ 31 then some ⟨y, m, d⟩
        else Option.none
      | _, _, _ => Option.none
    | _ => Option.none
  | _ => Option.none

/-- K22_START from app.py: `pd.Timestamp("2024-05-30")`, the default
start-date filter (start of the 22nd assembly). -/
def K22_START : Date := ⟨2024, 5, 30⟩

/-- Base URL of the synthesized detail link in `bill_detail_link`. -/
def BILL_DETAIL_BASE : String :=
  "https://likms.assembly.go.kr/bill/billDetail.do?billId="

/-- The condition `link and isinstance(link, str) and link.strip()` of
`bill_detail_link`: a string value that is nonempty and not
whitespace-only. -/
def linkOk : PyVal → Bool
  | PyVal.vstr s => s != "" && !(stripChars s.data).isEmpty
  | _ => false

/-- Embedding of `bill_detail_link` (app.py:72-77): return a non-blank
explicit `DETAIL_LINK`; otherwise derive a URL from a truthy `BILL_ID`;
otherwise return the empty string. -/
def bill_detail_link (row : Record) : String :=
  let link := rget row "DETAIL_LINK"
  if linkOk link then link.str
  else
    let bill_id := rget row "BILL_ID"
    if bill_id.truthy then BILL_DETAIL_BASE ++ bill_id.str else ""

/-- A normalized dataframe row of `build_dataframe` (app.py:108-132).
Field names follow the Korean display columns:
`bill_name` = 법률안명, `propose_dt` = 제안일, `proposer` = 대표발의,
`present_dt` = 소관위상정일, `proc_dt` = 소관위처리일,
`proc_result` = 소관위처리결과, `detail_link` = 상세보기,
`committee` = 소관위원회. Date columns hold the result of the
`to_datetime` coercion (`Option.none` is `NaT`). -/
structure BillRow where
  bill_name : PyVal
  propose_dt : Option Date
  proposer : PyVal
  present_dt : Option Date
  proc_dt : Option Date
  proc_result : PyVal
  detail_link : String
  committee : PyVal
deriving DecidableEq

/-- The per-record part of `build_dataframe`: the dict-comprehension row
with the date columns coerced by `to_datetime`. -/
def normRow (r : Record) : BillRow where
  bill_name := rget r "BILL_NAME"
  propose_dt := parseDate (rget r "PROPOSE_DT")
  proposer := pyOr (rget r "RST_PROPOSER") (rget r "PROPOSER")
  present_dt := parseDate (rget r "CMT_PRESENT_DT")
  proc_dt := parseDate (rget r "CMT_PROC_DT")
  proc_result := rget r "CMT_PROC_RESULT_CD"
  detail_link := bill_detail_link r
  committee := rget r "COMMITTEE"

/-- Row order of `sort_values("제안일", ascending=False)`: `a` precedes
`b` when its proposal date is the later one; `NaT` rows sort last
(pandas default `na_position="last"`). -/
def rowBefore (a b : BillRow) : Bool :=
  match a.propose_dt, b.propose_dt with
  | some x, some y => dateLE y x
  | some _, Option.none => true
  | Option.none, some _ => false
  | Option.none, Option.none => true

/-- Insertion step of the sort model. -/
def insertSorted (a : BillRow) : List BillRow → List BillRow
  | [] => [a]
  | b :: bs => if rowBefore a b then a :: b :: bs else b :: insertSorted a bs

/-- Sort model for `sort_values("제안일", ascending=False)` (pandas sorts
with an unstable quicksort; any order compatible with `rowBefore` is a
faithful model, tie order being unspecified). -/
def sortByProposeDesc : List BillRow → List BillRow
  | [] => []
  | a :: as => insertSorted a (sortByProposeDesc as)

/-- Embedding of `build_dataframe` (app.py:108-132): an empty input gives
an empty dataframe; otherwise each record is normalized and the rows are
sorted by proposal date descending. -/
def build_dataframe (rows : List Record) : List BillRow :=
  if rows.isEmpty then [] else sortByProposeDesc (rows.map normRow)

/-- The series value fed to the keyword search:
`fillna("").astype(str)` — `None`/`NaN` becomes the empty string, other
values their `str()` form. -/
def fillnaEmptyStr : PyVal → String
  | PyVal.none => ""
  | v => v.str

/-- One pattern token of the Python regex fragment against one text
character: `.` matches anything, a literal matches up to ASCII case. -/
def tokMatch (t c : Char) : Bool := t == '.' || t.toLower == c.toLower

/-- Match the whole pattern against a prefix of the text. -/
def matchPrefixRe : List Char → List Char → Bool
  | [], _ => true
  | _ :: _, [] => false
  | t :: ts, c :: cs => tokMatch t c && matchPrefixRe ts cs

/-- Models `Series.str.contains(pat, case=False)` — Python
`re.search(pat, s, re.IGNORECASE)` — for patterns whose only regex
metacharacter is `.` (the fragment exercised here), with ASCII case
folding: the pattern matches at some position of the text. -/
def reSearch (pat : List Char) : List Char → Bool
  | [] => matchPrefixRe pat []
  | c :: cs => matchPrefixRe pat (c :: cs) || reSearch pat cs

/-- The keyword mask of `filter_dataframe` on one row: the search term
matches the name column or the sponsor column. -/
def kwMatch (kw : String) (r : BillRow) : Bool :=
  reSearch kw.data (fillnaEmptyStr r.bill_name).data
    || reSearch kw.data (fillnaEmptyStr r.proposer).data

/-- Embedding of `filter_dataframe` (app.py:134-152): committee
exact-match (skipped for the empty committee string), start-date cutoff
(defaulting to `K22_START` when no date is supplied), keyword search
(skipped for the empty keyword). -/
def filter_dataframe (df : List BillRow) (committee : String)
    (start_date : Option Date) (search_kw : String) : List BillRow :=
  if df.isEmpty then df
  else
    let df1 :=
      if committee ≠ "" then
        df.filter (fun r => r.committee == PyVal.vstr committee)
      else df
    let start_ts := start_date.getD K22_START
    let df2 := df1.filter (fun r => dateGe r.propose_dt start_ts)
    if search_kw ≠ "" then df2.filter (kwMatch search_kw) else df2

/-- A displayed row after the fill step of `render_table`
(app.py:171-185): every column is a string. -/
structure DisplayRow where
  bill_name : String
  propose_dt : String
  proposer : String
  present_dt : String
  proc_dt : String
  proc_result : String
  detail_link : String
deriving DecidableEq

/-- Decimal digit character of `n % 10`. -/
def digitChar (n : Nat) : Char := Char.ofNat ('0'.toNat + n % 10)

/-- Four-digit zero-padded numeral (year field of `%Y-%m-%d`). -/
def fmt4 (n : Nat) : String :=
  ⟨[digitChar (n / 1000), digitChar (n / 100), digitChar (n / 10), digitChar n]⟩

/-- Two-digit zero-padded numeral (month and day of `%Y-%m-%d`). -/
def fmt2 (n : Nat) : String := ⟨[digitChar (n / 10), digitChar n]⟩

/-- `strftime("%Y-%m-%d")` on a parsed date. -/
def fmtDate (d : Date) : String :=
  fmt4 d.year ++ "-" ++ fmt2 d.month ++ "-" ++ fmt2 d.day

/-- Date-column display: `strftime` then `fillna("-")` — a parsed date
formats, `NaT` becomes the placeholder. -/
def dateDisplay : Option Date → String
  | Option.none => "-"
  | some d => fmtDate d

/-- Text-column display: `fillna("-")` then `str()` in the HTML builder —
`None`/`NaN` becomes the placeholder, other values their `str()` form. -/
def fillnaDashStr : PyVal → String
  | PyVal.none => "-"
  | v => v.str

/-- The detail-link display lambda of `render_table`: a nonempty
non-placeholder URL is wrapped in an anchor (href escaping elided, the
claims never inspect the markup), anything else displays as `"-"`. -/
def linkDisplay (url : String) : String :=
  if url ≠ "" ∧ url ≠ "-" then "<a>" ++ url ++ "</a>" else "-"

/-- The fill step of `render_table` on one normalized row: the displayed
string row. -/
def renderRow (r : BillRow) : DisplayRow where
  bill_name := fillnaDashStr r.bill_name
  propose_dt := dateDisplay r.propose_dt
  proposer := fillnaDashStr r.proposer
  present_dt := dateDisplay r.present_dt
  proc_dt := dateDisplay r.proc_dt
  proc_result := fillnaDashStr r.proc_result
  detail_link := linkDisplay r.detail_link

/-- The failure raised by `_fetch_page` on a non-success RESULT code:
`RuntimeError(f"[국회API 오류] {code} - {msg}")` carries the code and the
message. -/
structure ApiErr where
  code : String
  msg : String
deriving DecidableEq

/-- A page source: what `_fetch_page` yields per page index — a row list,
or the API error it raises. -/
abbrev FetchPage := Nat → Except ApiErr (List Record)

/-- One JSON page response, decoded: the optional `RESULT` code/message
pair, and the rows of the first block carrying a `"row"` key (empty when
no such block exists). -/
structure ApiResponse where
  result : Option (String × String)
  rows : List Record
deriving DecidableEq

/-- Embedding of the RESULT check and row extraction of `_fetch_page`
(app.py:79-91): a present RESULT code other than `"INFO-000"` raises an
`ApiErr` with that code and message; otherwise the page's rows are
returned. -/
def fetchPageOf (resp : Nat → ApiResponse) : FetchPage := fun p =>
  match (resp p).result with
  | some (code, msg) =>
    if code ≠ "INFO-000" then Except.error ⟨code, msg⟩
    else Except.ok (resp p).rows
  | Option.none => Except.ok (resp p).rows

/-- The pagination loop of `fetch_all_rows` (app.py:93-106), fuelled by
the number of remaining page requests. State: next page index,
accumulated rows, running total, and a ghost counter of page requests
issued (the Python function observes requests only through its network
effect; the counter makes them provable). An empty page stops before
extending; a short page extends then stops; otherwise the next page is
requested. A raised `ApiErr` propagates, discarding the accumulator. -/
def fetchGo (fp : FetchPage) (page_size : Nat) :
    Nat → Nat → List Record → Nat → Nat → Except ApiErr (List Record × Nat × Nat)
  | 0, _, acc, total, reqs => Except.ok (acc, total, reqs)
  | fuel + 1, p, acc, total, reqs =>
    match fp p with
    | Except.error e => Except.error e
    | Except.ok rows =>
      if rows.isEmpty then Except.ok (acc, total, reqs + 1)
      else if rows.length < page_size then
        Except.ok (acc ++ rows, total + rows.length, reqs + 1)
      else fetchGo fp page_size fuel (p + 1) (acc ++ rows) (total + rows.length) (reqs + 1)

/-- Embedding of `fetch_all_rows` (app.py:93-106): pages are requested
sequentially from index 1 up to `max_pages`. On success the result is
(accumulated rows, total, number of page requests); the Python function
returns `(acc, total, datetime.now())` — the fetch timestamp is attached
in the cache model below, the third component here being the ghost
request counter. -/
def fetch_all_rows (fp : FetchPage) (page_size max_pages : Nat) :
    Except ApiErr (List Record × Nat × Nat) :=
  fetchGo fp page_size max_pages 1 [] 0 0

/-- A page source serving a fixed list of successful pages, page `p`
holding the `p`-th element; pages past the end are empty. -/
def srcOfPages (pages : List (List Record)) : FetchPage := fun p =>
  Except.ok (pages.getD (p - 1) [])

/-- A response source serving a fixed list of page responses; pages past
the end are successful and empty. -/
def srcOfResponses (rs : List ApiResponse) : Nat → ApiResponse := fun p =>
  rs.getD (p - 1) ⟨Option.none, []⟩

/-- A full page is served and validates: the RESULT code, when present,
is the success code, and the page carries exactly `ps` rows. -/
def respOkFull (ps : Nat) (x : ApiResponse) : Bool :=
  (match x.result with
   | Option.none => true
   | some (c, _) => c == "INFO-000") && x.rows.length == ps

/-- Every page of the list but the last is exactly full, the last is
short (possibly empty): the shape of a source that ends normally. -/
def fullThenShort (ps : Nat) : List (List Record) → Bool
  | [] => false
  | [x] => decide (x.length < ps)
  | x :: y :: ys => x.length == ps && fullThenShort ps (y :: ys)

/-- Key of the `st.cache_data` memoization of `fetch_all_rows`: the full
parameter tuple (age, api key, page size, max pages). -/
structure FetchKey where
  age : Nat
  apiKey : String
  pageSize : Nat
  maxPages : Nat
deriving DecidableEq

/-- A cached fetch result: the fetch outcome paired with its
`fetched_at` timestamp (seconds). -/
abbrev FetchVal := Except ApiErr (List Record × Nat × Nat) × Nat

/-- The cache contents: entries of key, value and store time. -/
abbrev CacheState := List (FetchKey × FetchVal × Nat)

/-- The `ttl=600` of `@st.cache_data` on `fetch_all_rows`: ten minutes,
in seconds. -/
def CACHE_TTL : Nat := 600

/-- Modelled from the spec: the lookup of the `st.cache_data(ttl=600)`
decorator (Streamlit library code, not part of src/) — an entry is
served while its key matches and its age is below the TTL. -/
def cacheLookup (st : CacheState) (k : FetchKey) (now : Nat) : Option FetchVal :=
  match st with
  | [] => Option.none
  | (k', v, t) :: rest =>
    if k' = k ∧ now < t + CACHE_TTL then some v else cacheLookup rest k now

/-- Modelled from the spec: a call of the cached `fetch_all_rows` — a
fresh-enough entry is returned without touching the network; otherwise
the fetch runs, is stamped with the current time, and is stored. The
returned flag records whether the underlying network call sequence ran. -/
def cachedFetch (st : CacheState) (k : FetchKey) (now : Nat) (fp : FetchPage) :
    FetchVal × CacheState × Bool :=
  match cacheLookup st k now with
  | some v => (v, st, false)
  | Option.none =>
    let v : FetchVal := (fetch_all_rows fp k.pageSize k.maxPages, now)
    (v, (k, v, now) :: st, true)

/-- Modelled from the spec: `fetch_all_rows.clear()` on the refresh
button (app.py:332-333) — all cached entries of the function are
dropped. -/
def clearCache (_ : CacheState) : CacheState := []

/-- Case-insensitive prefix test on character lists (ASCII folding):
half of the spec-side substring definition. -/
def prefCI : List Char → List Char → Bool
  | [], _ => true
  | _ :: _, [] => false
  | p :: ps, c :: cs => p.toLower == c.toLower && prefCI ps cs

/-- Spec-side definition, following the spec words for the keyword
filter: the keyword occurs as a case-insensitive substring of the text.
To be compared against `reSearch`, the embedding of the code's regex
search. -/
def substrCI : List Char → List Char → Bool
  | pat, [] => prefCI pat []
  | pat, c :: cs => prefCI pat (c :: cs) || substrCI pat cs

/-- The metacharacters of Python `re` patterns. -/
def isReMeta (c : Char) : Bool :=
  c == '.' || c == '^' || c == '$' || c == '*' || c == '+' || c == '?' ||
    c == '\x7b' || c == '\x7d' || c == '[' || c == ']' || c == '\\' ||
    c == '|' || c == '(' || c == ')'

/-- Row proposed 2024-05-29, for the start-date boundary scenario. -/
def c5row29 : BillRow :=
  ⟨PyVal.vstr "a", some ⟨2024, 5, 29⟩, PyVal.none, Option.none, Option.none,
    PyVal.none, "", PyVal.none⟩

/-- Row proposed 2024-05-30, for the start-date boundary scenario. -/
def c5row30 : BillRow :=
  ⟨PyVal.vstr "b", some ⟨2024, 5, 30⟩, PyVal.none, Option.none, Option.none,
    PyVal.none, "", PyVal.none⟩

/-- Row named "abc", for the keyword-regex counterexample. -/
def c6row : BillRow :=
  ⟨PyVal.vstr "abc", some ⟨2024, 6, 1⟩, PyVal.none, Option.none, Option.none,
    PyVal.none, "", PyVal.none⟩

/-- Row sponsored by "Kim", for the keyword-filter witness. -/
def c6wrow : BillRow :=
  ⟨PyVal.vstr "Act", some ⟨2024, 6, 1⟩, PyVal.vstr "Kim", Option.none,
    Option.none, PyVal.none, "", PyVal.none⟩

/-- Row with a parsed proposal date, for the date-invariant witness. -/
def c10wrow : BillRow :=
  ⟨PyVal.vstr "x", some ⟨2024, 7, 1⟩, PyVal.none, Option.none, Option.none,
    PyVal.none, "", PyVal.none⟩

/-- An empty raw record, the row unit of the pagination scenarios. -/
def scenarioRec : Record := []

/-- The mock page sequence of the spec scenario: pages of sizes 100, 100
and 40. -/
def scenarioPages : List (List Record) :=
  [List.replicate 100 scenarioRec, List.replicate 100 scenarioRec,
    List.replicate 40 scenarioRec]

/-- A small page sequence (sizes 2 and 1) for the pagination witness. -/
def c2wpages : List (List Record) :=
  [[scenarioRec, scenarioRec], [scenarioRec]]

/-- A failing page response, for the remote-status witness. -/
def c3badResp : ApiResponse := ⟨some ("INFO-300", "bad request"), []⟩

/-- A page source serving no rows, for the cache witness. -/
def c7src : FetchPage := fun _ => Except.ok []

/-- The committee predicate of `filter_dataframe`, folded with its
empty-filter skip. -/
def passCommittee (c : String) (r : BillRow) : Bool :=
  if c = "" then true else r.committee == PyVal.vstr c

/-- The start-date predicate of `filter_dataframe` with the `K22_START`
default. -/
def passStart (s : Option Date) (r : BillRow) : Bool :=
  dateGe r.propose_dt (s.getD K22_START)

/-- The keyword predicate of `filter_dataframe`, folded with its
empty-keyword skip. -/
def passKw (k : String) (r : BillRow) : Bool :=
  if k = "" then true else kwMatch k r

/-- The three filters of `filter_dataframe` as one predicate (ordered as
the composed `List.filter` chain produces them). -/
def combinedPred (c : String) (s : Option Date) (k : String) (r : BillRow) : Bool :=
  passKw k r && (passStart s r && passCommittee c r)

theorem filter_dataframe_eq_filter (df : List BillRow) (c : String)
    (s : Option Date) (k : String) :
    filter_dataframe df c s k = df.filter (combinedPred c s k) := by
  cases df with
  | nil => simp [filter_dataframe]
  | cons a as =>
    by_cases hc : c = "" <;> by_cases hk : k = "" <;>
      (simp [filter_dataframe, hc, hk, List.filter_filter];
       apply List.filter_congr;
       intro r _;
       simp [combinedPred, passCommittee, passStart, passKw, hc, hk])

/-- C5: the start-date filter keeps exactly the rows whose proposal date
is on or after the given date (inclusive), `K22_START = 2024-05-30` is
applied when no date is supplied, and the 2024-05-30 boundary excludes a
row proposed 2024-05-29 while keeping one proposed 2024-05-30. -/
theorem C5_start_date_filter :
    (∀ (df : List BillRow) (s : Date),
        filter_dataframe df "" (some s) ""
          = df.filter (fun r => dateGe r.propose_dt s))
    ∧ (∀ df : List BillRow,
        filter_dataframe df "" Option.none ""
          = df.filter (fun r => dateGe r.propose_dt K22_START))
    ∧ K22_START = ⟨2024, 5, 30⟩
    ∧ dateGe (some ⟨2024, 5, 29⟩) ⟨2024, 5, 30⟩ = false
    ∧ dateGe (some ⟨2024, 5, 30⟩) ⟨2024, 5, 30⟩ = true
    ∧ filter_dataframe [c5row29, c5row30] "" (some ⟨2024, 5, 30⟩) "" = [c5row30] := by
  refine ⟨?_, ?_, rfl, by decide, by decide, by decide⟩
  · intro df s
    rw [filter_dataframe_eq_filter]
    apply List.filter_congr
    intro r _
    simp [combinedPred, passKw, passCommittee, passStart]
  · intro df
    rw [filter_dataframe_eq_filter]
    apply List.filter_congr
    intro r _
    simp [combinedPred, passKw, passCommittee, passStart]

/-- C8: filtering is a pure subset selection and is idempotent — running
`filter_dataframe` on its own output with the same parameters returns
the same list, and the output is a sublist of the input (rows are
selected, never modified). -/
theorem C8_filter_idempotent :
    ∀ (df : List BillRow) (c : String) (s : Option Date) (k : String),
      filter_dataframe (filter_dataframe df c s k) c s k
          = filter_dataframe df c s k
        ∧ List.Sublist (filter_dataframe df c s k) df := by
  intro df c s k
  constructor
  · rw [filter_dataframe_eq_filter, filter_dataframe_eq_filter,
      List.filter_filter]
    apply List.filter_congr
    intro r _
    exact Bool.and_self _
  · rw [filter_dataframe_eq_filter]
    exact List.filter_sublist df

/-- C10: every row surviving `filter_dataframe` has a successfully
parsed proposal date — rows whose proposal date coerced to `NaT` are
excluded, because a start timestamp is always applied and `NaT >= ts`
is false. -/
theorem C10_filtered_rows_dated :
    ∀ (df : List BillRow) (c : String) (s : Option Date) (k : String)
      (r : BillRow), r ∈ filter_dataframe df c s k →
      r.propose_dt ≠ Option.none := by
  intro df c s k r hr hnone
  rw [filter_dataframe_eq_filter] at hr
  have hp := (List.mem_filter.mp hr).2
  simp [combinedPred, passStart, hnone, dateGe] at hp

/-- Witness for C10 at a concrete row and dataframe. -/
theorem C10_filtered_rows_dated_witness :
    c10wrow ∈ filter_dataframe [c10wrow] "" Option.none ""
      ∧ c10wrow.propose_dt ≠ Option.none :=
  ⟨by decide, C10_filtered_rows_dated [c10wrow] "" Option.none "" c10wrow (by decide)⟩

theorem substrCI_nil (s : List Char) : substrCI [] s = true := by
  cases s <;> simp [substrCI, prefCI]

theorem matchPrefixRe_noDot (pat : List Char)
    (h : ∀ ch ∈ pat, (ch == '.') = false) :
    ∀ s, matchPrefixRe pat s = prefCI pat s := by
  induction pat with
  | nil => intro s; cases s <;> rfl
  | cons t ts ih =>
    intro s
    cases s with
    | nil => rfl
    | cons c cs =>
      have ht : (t == '.') = false := h t (by simp)
      have hts : ∀ ch ∈ ts, (ch == '.') = false := fun ch hch => h ch (by simp [hch])
      simp [matchPrefixRe, prefCI, tokMatch, ht, ih hts]

theorem reSearch_noDot (pat : List Char)
    (h : ∀ ch ∈ pat, (ch == '.') = false) :
    ∀ s, reSearch pat s = substrCI pat s := by
  intro s
  induction s with
  | nil => simp [reSearch, substrCI, matchPrefixRe_noDot pat h]
  | cons c cs ih => simp [reSearch, substrCI, matchPrefixRe_noDot pat h, ih]

/-- C6 (amended): `str.contains` matches the keyword as a Python regular
expression, not as a plain substring; for keywords containing no regex
metacharacter the filter keeps exactly the rows where the keyword occurs
as a case-insensitive substring of the name or of the sponsor (logical
OR), and the empty keyword imposes no restriction. -/
theorem C6_keyword_filter :
    ∀ (df : List BillRow) (c : String) (s : Option Date) (kw : String),
      (∀ ch ∈ kw.data, isReMeta ch = false) →
      filter_dataframe df c s kw
        = (filter_dataframe df c s "").filter
            (fun r => substrCI kw.data (fillnaEmptyStr r.bill_name).data
              || substrCI kw.data (fillnaEmptyStr r.proposer).data) := by
  intro df c s kw h
  have hnd : ∀ ch ∈ kw.data, (ch == '.') = false := by
    intro ch hch
    cases hdot : (ch == '.') with
    | false => rfl
    | true =>
      have hm := h ch hch
      simp [isReMeta, hdot] at hm
  rw [filter_dataframe_eq_filter, filter_dataframe_eq_filter, List.filter_filter]
  apply List.filter_congr
  intro r _
  by_cases hkw : kw = ""
  · subst hkw
    simp [combinedPred, passKw, substrCI_nil, show ("" : String).data = [] from rfl]
  · simp [combinedPred, passKw, hkw, kwMatch, reSearch_noDot kw.data hnd]

/-- Counterexample to C6 as stated: with the keyword "a.c" the filter
keeps a row named "abc", although "a.c" is not a case-insensitive
substring of the name or of the sponsor — `str.contains` reads the
keyword as a regular expression in which `.` matches any character. -/
theorem C6_keyword_regex_counterexample :
    filter_dataframe [c6row] "" (some ⟨2024, 1, 1⟩) "a.c" = [c6row]
      ∧ substrCI "a.c".data (fillnaEmptyStr c6row.bill_name).data = false
      ∧ substrCI "a.c".data (fillnaEmptyStr c6row.proposer).data = false := by
  decide

/-- Witness for C6: the metacharacter-free keyword "kim" matches the
sponsor "Kim" case-insensitively on a concrete dataframe. -/
theorem C6_keyword_filter_witness :
    (∀ ch ∈ "kim".data, isReMeta ch = false)
      ∧ filter_dataframe [c6wrow] "" (some ⟨2024, 1, 1⟩) "kim"
        = (filter_dataframe [c6wrow] "" (some ⟨2024, 1, 1⟩) "").filter
            (fun r => substrCI "kim".data (fillnaEmptyStr r.bill_name).data
              || substrCI "kim".data (fillnaEmptyStr r.proposer).data) :=
  ⟨by decide, C6_keyword_filter [c6wrow] "" (some ⟨2024, 1, 1⟩) "kim" (by decide)⟩

/-- Counterexample to C1 as stated: the empty raw record normalizes, in
`build_dataframe` itself, to a row whose name, sponsor and result fields
are null (`None`) and whose date fields are `NaT` — not the placeholder. -/
theorem C1_normalized_row_null_counterexample :
    build_dataframe [([] : Record)]
      = [⟨PyVal.none, Option.none, PyVal.none, Option.none, Option.none,
          PyVal.none, "", PyVal.none⟩]
      ∧ PyVal.none ≠ PyVal.vstr "-" := by
  decide

/-- C1 (amended): `build_dataframe` leaves missing source values as null
(`None`/`NaT`) in the normalized row; the placeholder "-" is substituted
only at render time — the fill step of `render_table` maps every absent
value, every unparseable date, and the empty derived link to "-", while
a blank source string passes through unchanged rather than becoming the
placeholder. -/
theorem C1_placeholder_applied_at_render :
    ∀ r : Record,
      (rget r "BILL_NAME" = PyVal.none → (renderRow (normRow r)).bill_name = "-")
      ∧ (rget r "RST_PROPOSER" = PyVal.none → rget r "PROPOSER" = PyVal.none →
          (renderRow (normRow r)).proposer = "-")
      ∧ (parseDate (rget r "PROPOSE_DT") = Option.none →
          (renderRow (normRow r)).propose_dt = "-")
      ∧ (parseDate (rget r "CMT_PRESENT_DT") = Option.none →
          (renderRow (normRow r)).present_dt = "-")
      ∧ (parseDate (rget r "CMT_PROC_DT") = Option.none →
          (renderRow (normRow r)).proc_dt = "-")
      ∧ (rget r "CMT_PROC_RESULT_CD" = PyVal.none →
          (renderRow (normRow r)).proc_result = "-")
      ∧ (bill_detail_link r = "" → (renderRow (normRow r)).detail_link = "-")
      ∧ (rget r "BILL_NAME" = PyVal.vstr "" →
          (renderRow (normRow r)).bill_name = "") := by
  intro r
  refine ⟨?_, ?_, ?_, ?_, ?_, ?_, ?_, ?_⟩
  · intro h; simp [renderRow, normRow, fillnaDashStr, h]
  · intro h1 h2; simp [renderRow, normRow, fillnaDashStr, pyOr, h1, h2, PyVal.truthy]
  · intro h; simp [renderRow, normRow, dateDisplay, h]
  · intro h; simp [renderRow, normRow, dateDisplay, h]
  · intro h; simp [renderRow, normRow, dateDisplay, h]
  · intro h; simp [renderRow, normRow, fillnaDashStr, h]
  · intro h; simp [renderRow, normRow, linkDisplay, h]
  · intro h; simp [renderRow, normRow, fillnaDashStr, h, PyVal.str]

/-- Witness for C1 at concrete records: an absent name renders as the
placeholder, while a blank name renders as the empty string rather than
the placeholder. -/
theorem C1_placeholder_witness :
    (renderRow (normRow ([] : Record))).bill_name = "-"
      ∧ (renderRow (normRow [("BILL_NAME", PyVal.vstr "")])).bill_name = "" :=
  ⟨(C1_placeholder_applied_at_render []).1 (by decide),
   (C1_placeholder_applied_at_render
     [("BILL_NAME", PyVal.vstr "")]).2.2.2.2.2.2.2 (by decide)⟩

/-- Counterexample to C4 as stated: with neither an explicit link nor a
bill identifier — and likewise with a present-but-blank identifier —
`bill_detail_link` returns the empty string, not the placeholder "-". -/
theorem C4_detail_link_counterexample :
    bill_detail_link ([] : Record) = ""
      ∧ bill_detail_link [("BILL_ID", PyVal.vstr "")] = ""
      ∧ ("" : String) ≠ "-" := by
  decide

/-- C4 (amended): when the record has no non-blank explicit detail link,
a truthy bill identifier yields the derived URL
`BILL_DETAIL_BASE ++ id`, and without one the field is the empty string
(displayed as the placeholder only by `render_table`). -/
theorem C4_detail_link :
    ∀ r : Record, linkOk (rget r "DETAIL_LINK") = false →
      ((rget r "BILL_ID").truthy = true →
        bill_detail_link r = BILL_DETAIL_BASE ++ (rget r "BILL_ID").str)
      ∧ ((rget r "BILL_ID").truthy = false → bill_detail_link r = "") := by
  intro r hl
  constructor <;> intro hb <;> simp [bill_detail_link, hl, hb]

/-- Witness for C4 at a concrete record carrying only a bill id. -/
theorem C4_detail_link_witness :
    linkOk (rget [("BILL_ID", PyVal.vstr "123")] "DETAIL_LINK") = false
      ∧ (rget [("BILL_ID", PyVal.vstr "123")] "BILL_ID").truthy = true
      ∧ bill_detail_link [("BILL_ID", PyVal.vstr "123")]
        = BILL_DETAIL_BASE ++ (rget [("BILL_ID", PyVal.vstr "123")] "BILL_ID").str :=
  ⟨by decide, by decide,
   (C4_detail_link [("BILL_ID", PyVal.vstr "123")] (by decide)).1 (by decide)⟩

theorem length_insertSorted (a : BillRow) (l : List BillRow) :
    (insertSorted a l).length = l.length + 1 := by
  induction l with
  | nil => rfl
  | cons b bs ih =>
    by_cases h : rowBefore a b <;> simp [insertSorted, h, ih]

theorem length_sortByProposeDesc (l : List BillRow) :
    (sortByProposeDesc l).length = l.length := by
  induction l with
  | nil => rfl
  | cons a as ih => simp [sortByProposeDesc, length_insertSorted, ih]

/-- C9: normalization is total — `build_dataframe` is defined on every
record list and yields exactly one row per input record, and
`bill_detail_link` is defined on every record, always returning the
explicit link, the derived URL, or the empty string. -/
theorem C9_normalization_total :
    ∀ rows : List Record, (build_dataframe rows).length = rows.length
      ∧ ∀ r : Record,
          bill_detail_link r = (rget r "DETAIL_LINK").str
          ∨ bill_detail_link r = BILL_DETAIL_BASE ++ (rget r "BILL_ID").str
          ∨ bill_detail_link r = "" := by
  intro rows
  constructor
  · cases rows with
    | nil => rfl
    | cons a as => simp [build_dataframe, length_sortByProposeDesc]
  · intro r
    cases hl : linkOk (rget r "DETAIL_LINK") with
    | false =>
      cases hb : (rget r "BILL_ID").truthy with
      | false => right; right; simp [bill_detail_link, hl, hb]
      | true => right; left; simp [bill_detail_link, hl, hb]
    | true => left; simp [bill_detail_link, hl]

theorem fetchGo_shift (fp : FetchPage) (ps : Nat) :
    ∀ (fuel p : Nat) (acc : List Record) (tot req : Nat),
      fetchGo fp ps fuel (p + 1) acc tot req
        = fetchGo (fun q => fp (q + 1)) ps fuel p acc tot req := by
  intro fuel
  induction fuel with
  | zero => intro p acc tot req; rfl
  | succ f ih =>
    intro p acc tot req
    simp only [fetchGo]
    cases h : fp (p + 1) with
    | error e => rfl
    | ok rows =>
      by_cases h1 : rows.isEmpty <;> by_cases h2 : rows.length < ps <;>
        simp [h1, h2, ih]

theorem fetchGo_congr (fp fp' : FetchPage) (ps : Nat) :
    ∀ (fuel p : Nat) (acc : List Record) (tot req : Nat),
      (∀ q, p ≤ q → fp q = fp' q) →
      fetchGo fp ps fuel p acc tot req = fetchGo fp' ps fuel p acc tot req := by
  intro fuel
  induction fuel with
  | zero => intro p acc tot req _; rfl
  | succ f ih =>
    intro p acc tot req hq
    have hp : fp p = fp' p := hq p (Nat.le_refl p)
    simp only [fetchGo, hp]
    cases fp' p with
    | error e => rfl
    | ok rows =>
      by_cases h1 : rows.isEmpty
      · simp [h1]
      · by_cases h2 : rows.length < ps
        · simp [h1, h2]
        · simp only [h1, h2, if_neg, Bool.false_eq_true, not_false_eq_true,
            if_false]
          exact ih (p + 1) (acc ++ rows) (tot + rows.length) (req + 1)
            (fun q hq' => hq q (Nat.le_trans (Nat.le_succ p) hq'))

theorem fetchGo_reqBound (fp : FetchPage) (ps : Nat) :
    ∀ (fuel p : Nat) (acc : List Record) (tot req : Nat)
      (res : List Record × Nat × Nat),
      fetchGo fp ps fuel p acc tot req = Except.ok res → res.2.2 ≤ req + fuel := by
  intro fuel
  induction fuel with
  | zero =>
    intro p acc tot req res h
    simp only [fetchGo] at h
    injection h with h'
    subst h'
    simp
  | succ f ih =>
    intro p acc tot req res h
    simp only [fetchGo] at h
    split at h
    · exact absurd h (by simp)
    · rename_i rows heq
      by_cases h1 : rows.isEmpty
      · rw [if_pos h1] at h
        injection h with h'
        subst h'
        show req + 1 ≤ req + (f + 1)
        omega
      · rw [if_neg h1] at h
        by_cases h2 : rows.length < ps
        · rw [if_pos h2] at h
          injection h with h'
          subst h'
          show req + 1 ≤ req + (f + 1)
          omega
        · rw [if_neg h2] at h
          have hb := ih (p + 1) (acc ++ rows) (tot + rows.length) (req + 1) res h
          omega

theorem fetchGo_fullThenShort (ps : Nat) (hps : 0 < ps) :
    ∀ (pages : List (List Record)) (fuel : Nat) (acc : List Record)
      (tot req : Nat),
      fullThenShort ps pages = true → pages.length ≤ fuel →
      fetchGo (srcOfPages pages) ps fuel 1 acc tot req
        = Except.ok (acc ++ pages.flatten, tot + pages.flatten.length,
            req + pages.length) := by
  intro pages
  induction pages with
  | nil =>
    intro fuel acc tot req hshape _
    simp [fullThenShort] at hshape
  | cons x xs ih =>
    intro fuel acc tot req hshape hlen
    cases fuel with
    | zero => simp at hlen
    | succ f =>
      cases xs with
      | nil =>
        have hshort : x.length < ps := by simpa [fullThenShort] using hshape
        cases x with
        | nil => simp [fetchGo, srcOfPages]
        | cons a as =>
          have hx : (a :: as).isEmpty = false := rfl
          simp [fetchGo, srcOfPages, hx, hshort]
          intro hcon
          exfalso
          simp only [List.length_cons] at hshort
          omega
      | cons y ys =>
        have hsplit : x.length = ps ∧ fullThenShort ps (y :: ys) = true := by
          simpa [fullThenShort] using hshape
        have hfull : x.length = ps := hsplit.1
        have hrest : fullThenShort ps (y :: ys) = true := hsplit.2
        have hxne : x.isEmpty = false := by
          cases x with
          | nil =>
            exfalso
            simp at hfull
            omega
          | cons a as => rfl
        have hnshort : ¬x.length < ps := by omega
        have step :
            fetchGo (srcOfPages (x :: y :: ys)) ps (f + 1) 1 acc tot req
              = fetchGo (srcOfPages (x :: y :: ys)) ps f 2 (acc ++ x)
                  (tot + x.length) (req + 1) := by
          simp [fetchGo, srcOfPages, hxne, hnshort]
        rw [step, show (2 : Nat) = 1 + 1 from rfl, fetchGo_shift]
        have hsh : ∀ q, 1 ≤ q →
            srcOfPages (x :: y :: ys) (q + 1) = srcOfPages (y :: ys) q := by
          intro q hq
          obtain ⟨q', rfl⟩ : ∃ q', q = q' + 1 := ⟨q - 1, by omega⟩
          simp [srcOfPages]
        rw [fetchGo_congr (fun q => srcOfPages (x :: y :: ys) (q + 1))
          (srcOfPages (y :: ys)) ps f 1 (acc ++ x) (tot + x.length) (req + 1) hsh]
        rw [ih f (acc ++ x) (tot + x.length) (req + 1) hrest
          (by simp only [List.length_cons] at hlen ⊢; omega)]
        simp [List.flatten_cons, List.append_assoc, List.length_append,
          List.length_cons, Nat.add_assoc, Nat.add_comm, Nat.add_left_comm]

theorem fetchGo_goodThenError (ps : Nat) (hps : 0 < ps) (bad : ApiResponse)
    (c m : String) (hbad : bad.result = some (c, m)) (hc : c ≠ "INFO-000") :
    ∀ (good : List ApiResponse) (fuel : Nat) (acc : List Record)
      (tot req : Nat),
      (∀ x ∈ good, respOkFull ps x = true) → good.length < fuel →
      fetchGo (fetchPageOf (srcOfResponses (good ++ [bad]))) ps fuel 1 acc tot req
        = Except.error ⟨c, m⟩ := by
  intro good
  induction good with
  | nil =>
    intro fuel acc tot req _ hlen
    cases fuel with
    | zero => simp at hlen
    | succ f =>
      have h1 : fetchPageOf (srcOfResponses [bad]) 1 = Except.error ⟨c, m⟩ := by
        simp [fetchPageOf, srcOfResponses, hbad, hc]
      simp [fetchGo, h1]
  | cons g gs ih =>
    intro fuel acc tot req hgood hlen
    cases fuel with
    | zero => simp at hlen
    | succ f =>
      simp only [List.cons_append]
      have hg := hgood g (by simp)
      have hgrows : g.rows.length = ps := by
        simp [respOkFull] at hg
        exact hg.2
      have hcode : fetchPageOf (srcOfResponses (g :: (gs ++ [bad]))) 1
          = Except.ok g.rows := by
        cases hres : g.result with
        | none => simp [fetchPageOf, srcOfResponses, hres]
        | some pr =>
          obtain ⟨c0, m0⟩ := pr
          have hc0 : c0 = "INFO-000" := by
            simp [respOkFull, hres] at hg
            exact hg.1
          simp [fetchPageOf, srcOfResponses, hres, hc0]
      have hne : g.rows.isEmpty = false := by
        cases hrows : g.rows with
        | nil =>
          exfalso
          rw [hrows] at hgrows
          simp at hgrows
          omega
        | cons a as => rfl
      have hnshort : ¬g.rows.length < ps := by omega
      have step :
          fetchGo (fetchPageOf (srcOfResponses (g :: (gs ++ [bad])))) ps (f + 1) 1
              acc tot req
            = fetchGo (fetchPageOf (srcOfResponses (g :: (gs ++ [bad])))) ps f 2
                (acc ++ g.rows) (tot + g.rows.length) (req + 1) := by
        simp [fetchGo, hcode, hne, hnshort]
      rw [step, show (2 : Nat) = 1 + 1 from rfl, fetchGo_shift]
      have hsh : ∀ q, 1 ≤ q →
          fetchPageOf (srcOfResponses (g :: (gs ++ [bad]))) (q + 1)
            = fetchPageOf (srcOfResponses (gs ++ [bad])) q := by
        intro q hq
        obtain ⟨q', rfl⟩ : ∃ q', q = q' + 1 := ⟨q - 1, by omega⟩
        simp [fetchPageOf, srcOfResponses]
      rw [fetchGo_congr (fun q => fetchPageOf (srcOfResponses (g :: (gs ++ [bad]))) (q + 1))
        (fetchPageOf (srcOfResponses (gs ++ [bad]))) ps f 1 (acc ++ g.rows)
        (tot + g.rows.length) (req + 1) hsh]
      exact ih f (acc ++ g.rows) (tot + g.rows.length) (req + 1)
        (fun x hx => hgood x (by simp [hx]))
        (by simp only [List.length_cons] at hlen; omega)

/-- C2: pages are requested sequentially from page 1 and accumulated in
arrival order; the fetch stops at the first page shorter than the page
size (an empty page contributing no rows) and, on success, never issues
more than `max_pages` requests; in particular mock pages of sizes
[100, 100, 40] with page size 100 yield exactly 240 rows after exactly 3
requests even with max_pages = 200. -/
theorem C2_pagination :
    (∀ (pages : List (List Record)) (ps mp : Nat), 0 < ps →
        fullThenShort ps pages = true → pages.length ≤ mp →
        fetch_all_rows (srcOfPages pages) ps mp
          = Except.ok (pages.flatten, pages.flatten.length, pages.length))
    ∧ (∀ (fp : FetchPage) (ps mp : Nat) (res : List Record × Nat × Nat),
        fetch_all_rows fp ps mp = Except.ok res → res.2.2 ≤ mp)
    ∧ fetch_all_rows (srcOfPages scenarioPages) 100 200
        = Except.ok (scenarioPages.flatten, 240, 3) := by
  refine ⟨?_, ?_, ?_⟩
  · intro pages ps mp hps hshape hlen
    have h := fetchGo_fullThenShort ps hps pages mp [] 0 0 hshape hlen
    simpa [fetch_all_rows] using h
  · intro fp ps mp res h
    have hb := fetchGo_reqBound fp ps mp 1 [] 0 0 res h
    simpa using hb
  · have hshape : fullThenShort 100 scenarioPages = true := by
      simp only [scenarioPages, fullThenShort, List.length_replicate]
      decide
    have hlen : scenarioPages.length ≤ 200 := by
      simp only [scenarioPages, List.length_cons, List.length_nil]
      omega
    have h := fetchGo_fullThenShort 100 (by omega) scenarioPages 200 [] 0 0
      hshape hlen
    have hflat : scenarioPages.flatten.length = 240 := by
      simp only [scenarioPages, List.flatten_cons, List.flatten_nil,
        List.length_append, List.length_replicate, List.length_nil]
    have hcnt : scenarioPages.length = 3 := by
      simp only [scenarioPages, List.length_cons, List.length_nil]
    simpa [fetch_all_rows, hflat, hcnt] using h

/-- Witness for C2 at a concrete page sequence (sizes 2 and 1, page size
2, max pages 5). -/
theorem C2_pagination_witness :
    (0 : Nat) < 2 ∧ fullThenShort 2 c2wpages = true ∧ c2wpages.length ≤ 5
      ∧ fetch_all_rows (srcOfPages c2wpages) 2 5
        = Except.ok (c2wpages.flatten, c2wpages.flatten.length, c2wpages.length)
      ∧ (c2wpages.flatten, c2wpages.flatten.length, c2wpages.length).2.2 ≤ 5 :=
  ⟨by decide, by decide, by decide,
   C2_pagination.1 c2wpages 2 5 (by decide) (by decide) (by decide),
   C2_pagination.2.1 (srcOfPages c2wpages) 2 5
     (c2wpages.flatten, c2wpages.flatten.length, c2wpages.length) (by rfl)⟩

/-- C3: a requested page whose RESULT code differs from "INFO-000" makes
the whole multi-page fetch fail with an error carrying that code and its
message; the `Except.error` value carries no rows, so no partial
accumulation from earlier pages reaches the caller. -/
theorem C3_remote_status_aborts :
    ∀ (good : List ApiResponse) (bad : ApiResponse) (c m : String) (ps mp : Nat),
      0 < ps → (∀ x ∈ good, respOkFull ps x = true) → good.length < mp →
      bad.result = some (c, m) → c ≠ "INFO-000" →
      fetch_all_rows (fetchPageOf (srcOfResponses (good ++ [bad]))) ps mp
        = Except.error ⟨c, m⟩ := by
  intro good bad c m ps mp hps hgood hlen hbad hc
  exact fetchGo_goodThenError ps hps bad c m hbad hc good mp [] 0 0 hgood hlen

/-- Witness for C3: a single failing page response aborts a fetch with
the error carrying code INFO-300 and its message. -/
theorem C3_remote_status_witness :
    (0 : Nat) < 1 ∧ c3badResp.result = some ("INFO-300", "bad request")
      ∧ ("INFO-300" : String) ≠ "INFO-000"
      ∧ fetch_all_rows (fetchPageOf (srcOfResponses [c3badResp])) 1 2
        = Except.error ⟨"INFO-300", "bad request"⟩ :=
  ⟨by decide, by decide, by decide,
   C3_remote_status_aborts [] c3badResp "INFO-300" "bad request" 1 2 (by decide)
     (by simp) (by decide) (by decide) (by decide)⟩

/-- C7: within the TTL window two fetches with the identical
(age, api key, page size, max pages) tuple return the same
(result, timestamp) value while the underlying network sequence runs
exactly once, and a refresh (cache clear, dropping all entries) forces
the next fetch to run the network again. Modelled from the spec: the
`st.cache_data(ttl=600)` memoization and `fetch_all_rows.clear()` are
Streamlit library behavior, not code under src/. -/
theorem C7_cache_ttl :
    ∀ (fp fp2 fp3 : FetchPage) (age : Nat) (key : String) (ps mp t1 t2 t3 : Nat),
      t1 ≤ t2 → t2 < t1 + CACHE_TTL →
      (cachedFetch [] ⟨age, key, ps, mp⟩ t1 fp).2.2 = true
      ∧ (cachedFetch (cachedFetch [] ⟨age, key, ps, mp⟩ t1 fp).2.1
          ⟨age, key, ps, mp⟩ t2 fp2).1
        = (cachedFetch [] ⟨age, key, ps, mp⟩ t1 fp).1
      ∧ (cachedFetch (cachedFetch [] ⟨age, key, ps, mp⟩ t1 fp).2.1
          ⟨age, key, ps, mp⟩ t2 fp2).2.2 = false
      ∧ (cachedFetch (clearCache (cachedFetch [] ⟨age, key, ps, mp⟩ t1 fp).2.1)
          ⟨age, key, ps, mp⟩ t3 fp3).2.2 = true := by
  intro fp fp2 fp3 age key ps mp t1 t2 t3 h12 httl
  refine ⟨rfl, ?_, ?_, rfl⟩ <;>
    simp [cachedFetch, cacheLookup, clearCache, httl]

/-- Witness for C7 at concrete parameters, fetching at times 0 and 300. -/
theorem C7_cache_ttl_witness :
    (0 : Nat) ≤ 300 ∧ (300 : Nat) < 0 + CACHE_TTL
      ∧ (cachedFetch [] ⟨22, "key", 100, 5⟩ 0 c7src).2.2 = true
      ∧ (cachedFetch (cachedFetch [] ⟨22, "key", 100, 5⟩ 0 c7src).2.1
          ⟨22, "key", 100, 5⟩ 300 c7src).2.2 = false :=
  ⟨by decide, by decide,
   (C7_cache_ttl c7src c7src c7src 22 "key" 100 5 0 300 1000 (by decide)
     (by decide)).1,
   (C7_cache_ttl c7src c7src c7src 22 "key" 100 5 0 300 1000 (by decide)
     (by decide)).2.2.1⟩
